import Mathlib

/-!
Shallow embedding of `src/fetch_all_data.py` (Runalyze full data fetcher)
and proofs of the specification claims about it.

The script is a sequential ETL job.  We embed the pure decision logic of
each function: HTTP traffic is modelled by a function from attempt index
(resp. page number) to the response the remote service gives, and the
side effects we must reason about (sleeps, requests issued, files
written) are returned as data.
-/

set_option autoImplicit false

namespace Rundash

/-! ### Configuration constants (src/fetch_all_data.py lines 49-51) -/

def MAX_RETRIES : Nat := 3

def RETRY_WAIT : Nat := 60

/-- Backoff used after a timeout: `time.sleep(5)` (line 165). -/
def TIMEOUT_BACKOFF : Nat := 5

/-! ### String helpers mirroring the Python primitives used by the script -/

/-- `startsWithCh pat l` holds when the char list `l` begins with `pat`;
this is Python's `str.startswith` on char lists. -/
def startsWithCh : List Char → List Char → Bool
  | [], _ => true
  | _ :: _, [] => false
  | a :: as, b :: bs => a = b && startsWithCh as bs

/-- `containsChunk pat l`: `pat` occurs as a contiguous run inside `l`;
this is Python's `pat in l` on char lists. -/
def containsChunk (pat : List Char) : List Char → Bool
  | [] => startsWithCh pat []
  | c :: rest => startsWithCh pat (c :: rest) || containsChunk pat rest

/-- Python's `sub in s` for strings. -/
def strContains (s sub : String) : Bool :=
  containsChunk sub.toList s.toList

/-- Drop the chars satisfying `p` from both ends of a char list. -/
def stripWhile (p : Char → Bool) (l : List Char) : List Char :=
  ((l.dropWhile p).reverse.dropWhile p).reverse

/-- Python's `str.strip()` (strip surrounding whitespace). -/
def pyStrip (s : String) : String :=
  ⟨stripWhile Char.isWhitespace s.toList⟩

/-- Python's `str.strip(c)` for a single char `c`. -/
def pyStripChar (c : Char) (s : String) : String :=
  ⟨stripWhile (fun x => x = c) s.toList⟩

/-- Python's `s.split(sep, 1)` when `sep` occurs: the part before the
first `sep` and the remainder; `none` when `sep` does not occur. -/
def splitOnceCh (sep : Char) : List Char → Option (List Char × List Char)
  | [] => none
  | c :: cs =>
    if c = sep then some ([], cs)
    else (splitOnceCh sep cs).map (fun p => (c :: p.1, p.2))

/-! ### Association lists standing in for Python dicts -/

/-- First-match lookup in an association list (Python `d.get(k)` /
`k in d`; dict keys are unique, and every insertion below preserves
that, so first-match lookup is the dict lookup). -/
def lookupKV {V : Type} (k : String) : List (String × V) → Option V
  | [] => none
  | p :: ps => if p.1 = k then some p.2 else lookupKV k ps

/-! ### `api_get` (lines 147-171)

One call of `api_get` is driven by the sequence of outcomes the network
produces for its successive attempts: attempt `i` either yields a
response with an HTTP status code and a decoded JSON body, or times out.
The embedding returns the number of attempts actually issued, the list
of sleep durations performed, and the final outcome: `Except.error c`
models an `HTTPError` with status `c` propagating out of `api_get`,
`Except.ok (some v)` models `return response.json()`, and
`Except.ok none` models `return []` (the 404 case and the
retries-exhausted case). -/

instance exceptDecEq {ε α : Type} [DecidableEq ε] [DecidableEq α] :
    DecidableEq (Except ε α) := fun x y =>
  match x, y with
  | Except.error a, Except.error b =>
    if h : a = b then isTrue (by rw [h]) else isFalse (by intro hc; cases hc; exact h rfl)
  | Except.error _, Except.ok _ => isFalse (by intro hc; cases hc)
  | Except.ok _, Except.error _ => isFalse (by intro hc; cases hc)
  | Except.ok a, Except.ok b =>
    if h : a = b then isTrue (by rw [h]) else isFalse (by intro hc; cases hc; exact h rfl)

inductive HttpAttempt (α : Type) where
  | resp (code : Nat) (body : α)
  | timeout
  deriving DecidableEq

structure ApiCall (α : Type) where
  attemptsUsed : Nat
  sleeps : List Nat
  result : Except Nat (Option α)
  deriving DecidableEq

/-- The `for attempt in range(MAX_RETRIES)` loop of `api_get`: `i` is the
index of the next attempt, `fuel` the number of loop iterations left.
Running out of fuel is the `return []` after the loop. -/
def api_getGo {α : Type} (f : Nat → HttpAttempt α) : Nat → Nat → ApiCall α
  | _, 0 => ⟨0, [], Except.ok none⟩
  | i, fuel + 1 =>
    match f i with
    | HttpAttempt.timeout =>
      let r := api_getGo f (i + 1) fuel
      ⟨r.attemptsUsed + 1, TIMEOUT_BACKOFF :: r.sleeps, r.result⟩
    | HttpAttempt.resp code body =>
      if code = 429 then
        let r := api_getGo f (i + 1) fuel
        ⟨r.attemptsUsed + 1, RETRY_WAIT :: r.sleeps, r.result⟩
      else if 400 ≤ code ∧ code < 600 then
        if code = 404 then ⟨1, [], Except.ok none⟩
        else ⟨1, [], Except.error code⟩
      else ⟨1, [], Except.ok (some body)⟩

/-- `api_get` (lines 147-171): at most `MAX_RETRIES` attempts, starting
with attempt 0. -/
def api_get {α : Type} (f : Nat → HttpAttempt α) : ApiCall α :=
  api_getGo f 0 MAX_RETRIES

theorem api_getGo_attempts_le {α : Type} (f : Nat → HttpAttempt α) :
    ∀ fuel i, (api_getGo f i fuel).attemptsUsed ≤ fuel := by
  intro fuel
  induction fuel with
  | zero => intro i; simp [api_getGo]
  | succ n ih =>
    intro i
    cases h : f i with
    | timeout =>
      simp only [api_getGo, h]
      exact Nat.succ_le_succ (ih (i + 1))
    | resp code body =>
      simp only [api_getGo, h]
      by_cases h429 : code = 429
      · rw [if_pos h429]
        exact Nat.succ_le_succ (ih (i + 1))
      · rw [if_neg h429]
        by_cases herr : 400 ≤ code ∧ code < 600
        · rw [if_pos herr]
          by_cases h404 : code = 404
          · rw [if_pos h404]; exact Nat.succ_le_succ (Nat.zero_le n)
          · rw [if_neg h404]; exact Nat.succ_le_succ (Nat.zero_le n)
        · rw [if_neg herr]; exact Nat.succ_le_succ (Nat.zero_le n)

theorem api_getGo_timeout_step {α : Type} (f : Nat → HttpAttempt α) (i fuel : Nat)
    (h : f i = HttpAttempt.timeout) :
    api_getGo f i (fuel + 1) =
      ⟨(api_getGo f (i + 1) fuel).attemptsUsed + 1,
       TIMEOUT_BACKOFF :: (api_getGo f (i + 1) fuel).sleeps,
       (api_getGo f (i + 1) fuel).result⟩ := by
  simp only [api_getGo, h]

theorem api_getGo_429_step {α : Type} (f : Nat → HttpAttempt α) (i fuel : Nat) (b : α)
    (h : f i = HttpAttempt.resp 429 b) :
    api_getGo f i (fuel + 1) =
      ⟨(api_getGo f (i + 1) fuel).attemptsUsed + 1,
       RETRY_WAIT :: (api_getGo f (i + 1) fuel).sleeps,
       (api_getGo f (i + 1) fuel).result⟩ := by
  simp only [api_getGo, h, eq_self_iff_true, if_true]

theorem api_getGo_success_step {α : Type} (f : Nat → HttpAttempt α) (i fuel code : Nat) (v : α)
    (h : f i = HttpAttempt.resp code v) (h429 : code ≠ 429)
    (hok : ¬(400 ≤ code ∧ code < 600)) :
    api_getGo f i (fuel + 1) = ⟨1, [], Except.ok (some v)⟩ := by
  simp only [api_getGo, h, if_neg h429, if_neg hok]

theorem api_getGo_404_step {α : Type} (f : Nat → HttpAttempt α) (i fuel : Nat) (b : α)
    (h : f i = HttpAttempt.resp 404 b) :
    api_getGo f i (fuel + 1) = ⟨1, [], Except.ok none⟩ := by
  have h429 : (404 : Nat) ≠ 429 := by omega
  have herr : 400 ≤ 404 ∧ 404 < 600 := by omega
  simp only [api_getGo, h, if_neg h429, if_pos herr, eq_self_iff_true, if_true]

theorem api_getGo_error_step {α : Type} (f : Nat → HttpAttempt α) (i fuel code : Nat) (b : α)
    (h : f i = HttpAttempt.resp code b) (h429 : code ≠ 429)
    (herr : 400 ≤ code ∧ code < 600) (h404 : code ≠ 404) :
    api_getGo f i (fuel + 1) = ⟨1, [], Except.error code⟩ := by
  simp only [api_getGo, h, if_neg h429, if_pos herr, if_neg h404]

/-- C3: through `api_get`, an HTTP 429 response causes a `RETRY_WAIT`-second
sleep followed by a retry of the same request (the tail of the run is the
loop restarted at the next attempt); the total number of attempts of any run
is bounded by `MAX_RETRIES`; and a single 429 followed by a success makes
`api_get` return the same result as an immediate success. -/
theorem api_get_429_spec {α : Type} (f : Nat → HttpAttempt α) (b v : α)
    (h0 : f 0 = HttpAttempt.resp 429 b) (h1 : f 1 = HttpAttempt.resp 200 v) :
    api_get f = ⟨2, [RETRY_WAIT], Except.ok (some v)⟩ ∧
    (api_get f).result = (api_get (fun _ => HttpAttempt.resp 200 v)).result ∧
    ∀ g : Nat → HttpAttempt α, (api_get g).attemptsUsed ≤ MAX_RETRIES := by
  have h200 : (200 : Nat) ≠ 429 := by omega
  have h200b : ¬((400 : Nat) ≤ 200 ∧ 200 < 600) := by omega
  have step1 : api_getGo f 1 2 = ⟨1, [], Except.ok (some v)⟩ :=
    api_getGo_success_step f 1 1 200 v h1 h200 h200b
  have hmain : api_get f = ⟨2, [RETRY_WAIT], Except.ok (some v)⟩ := by
    show api_getGo f 0 3 = _
    rw [show (3 : Nat) = 2 + 1 from rfl, api_getGo_429_step f 0 2 b h0]
    rw [show (0 : Nat) + 1 = 1 from rfl, step1]
  refine ⟨hmain, ?_, fun g => api_getGo_attempts_le g MAX_RETRIES 0⟩
  have himm : api_get (fun _ => HttpAttempt.resp 200 v) = ⟨1, [], Except.ok (some v)⟩ := by
    show api_getGo (fun _ => HttpAttempt.resp 200 v) 0 3 = _
    rw [show (3 : Nat) = 2 + 1 from rfl]
    exact api_getGo_success_step _ 0 2 200 v rfl h200 h200b
  rw [hmain, himm]

/-- Witness for C3 at a concrete attempt sequence over `Nat` bodies. -/
theorem api_get_429_spec_witness :
    api_get (fun n => if n = 0 then HttpAttempt.resp 429 0 else HttpAttempt.resp 200 7) =
      ⟨2, [RETRY_WAIT], Except.ok (some 7)⟩ :=
  (api_get_429_spec (fun n => if n = 0 then HttpAttempt.resp 429 0 else HttpAttempt.resp 200 7)
    0 7 (by decide) (by decide)).1

/-- C4: through `api_get`, an HTTP 404 response yields an empty result
(`Except.ok none`, i.e. `return []`) without raising, while any other HTTP
error status (4xx/5xx other than 429 and 404) makes `api_get` raise
(`Except.error`), propagating to the caller. -/
theorem api_get_404_spec {α : Type} (f : Nat → HttpAttempt α) (b : α) (code : Nat) :
    (f 0 = HttpAttempt.resp 404 b → api_get f = ⟨1, [], Except.ok none⟩) ∧
    (f 0 = HttpAttempt.resp code b → 400 ≤ code → code < 600 → code ≠ 429 → code ≠ 404 →
      api_get f = ⟨1, [], Except.error code⟩) := by
  constructor
  · intro h
    show api_getGo f 0 3 = _
    rw [show (3 : Nat) = 2 + 1 from rfl]
    exact api_getGo_404_step f 0 2 b h
  · intro h hlo hhi h429 h404
    show api_getGo f 0 3 = _
    rw [show (3 : Nat) = 2 + 1 from rfl]
    exact api_getGo_error_step f 0 2 code b h h429 ⟨hlo, hhi⟩ h404

/-- Witness for C4: a 404 attempt sequence and a 500 attempt sequence. -/
theorem api_get_404_spec_witness :
    api_get (fun _ => HttpAttempt.resp 404 0) = ⟨1, [], Except.ok none⟩ ∧
    api_get (fun _ => HttpAttempt.resp 500 0) = ⟨1, [], Except.error 500⟩ :=
  ⟨(api_get_404_spec (fun _ => HttpAttempt.resp 404 0) 0 404).1 rfl,
   (api_get_404_spec (fun _ => HttpAttempt.resp 500 0) 0 500).2 rfl (by decide) (by decide)
     (by decide) (by decide)⟩

/-- C8: through `api_get`, a timeout causes a `TIMEOUT_BACKOFF`-second sleep
followed by a retry (the tail of the run is the loop restarted at the next
attempt), and when all `MAX_RETRIES` attempts time out the call returns the
empty result `Except.ok none` (`return []` after the loop) instead of
raising. -/
theorem api_get_timeout_spec {α : Type} (f : Nat → HttpAttempt α) :
    (f 0 = HttpAttempt.timeout →
      api_get f = ⟨(api_getGo f 1 (MAX_RETRIES - 1)).attemptsUsed + 1,
                   TIMEOUT_BACKOFF :: (api_getGo f 1 (MAX_RETRIES - 1)).sleeps,
                   (api_getGo f 1 (MAX_RETRIES - 1)).result⟩) ∧
    ((∀ i, i < MAX_RETRIES → f i = HttpAttempt.timeout) →
      api_get f = ⟨MAX_RETRIES, List.replicate MAX_RETRIES TIMEOUT_BACKOFF, Except.ok none⟩) := by
  constructor
  · intro h
    show api_getGo f 0 3 = _
    rw [show (3 : Nat) = 2 + 1 from rfl, api_getGo_timeout_step f 0 2 h]
    rfl
  · intro h
    show api_getGo f 0 3 = _
    rw [show (3 : Nat) = 2 + 1 from rfl, api_getGo_timeout_step f 0 2 (h 0 (by decide))]
    rw [show (0 : Nat) + 1 = 1 from rfl, show (2 : Nat) = 1 + 1 from rfl,
        api_getGo_timeout_step f 1 1 (h 1 (by decide))]
    rw [show (1 : Nat) + 1 = 2 from rfl, show (1 : Nat) = 0 + 1 from rfl,
        api_getGo_timeout_step f 2 0 (h 2 (by decide))]
    simp [api_getGo, MAX_RETRIES, List.replicate]

/-- Witness for C8: the all-timeouts attempt sequence. -/
theorem api_get_timeout_spec_witness :
    api_get (fun _ => (HttpAttempt.timeout : HttpAttempt Nat)) =
      ⟨MAX_RETRIES, List.replicate MAX_RETRIES TIMEOUT_BACKOFF, Except.ok none⟩ :=
  (api_get_timeout_spec (fun _ => (HttpAttempt.timeout : HttpAttempt Nat))).2
    (fun _ _ => rfl)

/-! ### `fetch_paginated` (lines 174-200)

The remote service is modelled as a function from page number to the
JSON value `api_get` hands back for that page.  A dict response carries
optional `"data"` and `"hydra:member"` fields (each a list of records
when present); a list response carries its records; any other JSON
value carries nothing.  The embedding returns the list of page numbers
actually requested together with the accumulated records. -/

inductive PageResp (α : Type) where
  | dict (dataField : Option (List α)) (hydraMember : Option (List α))
  | list (items : List α)
  | other
  deriving DecidableEq

/-- Lines 184-189: `data.get("data", data.get("hydra:member", []))` for a
dict, the list itself for a list, `[]` otherwise. -/
def extractItems {α : Type} : PageResp α → List α
  | PageResp.dict d h =>
    match d with
    | some v => v
    | none =>
      match h with
      | some v => v
      | none => []
  | PageResp.list xs => xs
  | PageResp.other => []

structure FetchResult (α : Type) where
  requestedPages : List Nat
  items : List α
  deriving DecidableEq

/-- The `while True` loop of `fetch_paginated`, started at page `page`
with `fuel` iterations available (the real loop is unbounded; every run
that terminates is reproduced with any sufficiently large fuel). -/
def fetchLoop {α : Type} (f : Nat → PageResp α) : Nat → Nat → FetchResult α
  | _, 0 => ⟨[], []⟩
  | page, fuel + 1 =>
    let items := extractItems (f page)
    if items.isEmpty then ⟨[page], []⟩
    else
      let r := fetchLoop f (page + 1) fuel
      ⟨page :: r.requestedPages, items ++ r.items⟩

/-- `fetch_paginated` (lines 174-200): pages are requested starting at 1. -/
def fetch_paginated {α : Type} (f : Nat → PageResp α) (fuel : Nat) : FetchResult α :=
  fetchLoop f 1 fuel

theorem fetchLoop_spec {α : Type} (f : Nat → PageResp α) (k : Nat) :
    ∀ fuel p, p ≤ k → extractItems (f k) = [] →
      (∀ i, p ≤ i → i < k → extractItems (f i) ≠ []) →
      k - p < fuel →
      fetchLoop f p fuel =
        ⟨List.range' p (k - p + 1), (List.range' p (k - p)).flatMap (fun i => extractItems (f i))⟩ := by
  intro fuel
  induction fuel with
  | zero => intro p _ _ _ hf; omega
  | succ n ih =>
    intro p hpk hk hne hf
    by_cases hpk' : p = k
    · subst hpk'
      simp only [fetchLoop, hk, List.isEmpty_nil, if_true]
      rw [Nat.sub_self]
      rfl
    · have hlt : p < k := lt_of_le_of_ne hpk hpk'
      have hne0 : extractItems (f p) ≠ [] := hne p le_rfl hlt
      have hne0' : ¬((extractItems (f p)).isEmpty = true) := by
        simpa [List.isEmpty_iff] using hne0
      simp only [fetchLoop, if_neg hne0']
      rw [ih (p + 1) (by omega) hk (fun i h1 h2 => hne i (by omega) h2) (by omega)]
      have h1 : k - p + 1 = (k - (p + 1) + 1) + 1 := by omega
      have h2 : k - p = (k - (p + 1)) + 1 := by omega
      rw [h1, h2, List.range'_succ p (k - (p + 1) + 1) 1, List.range'_succ p (k - (p + 1)) 1]
      rfl

/-- C1: for any page-response sequence whose first empty page (in the
sense of the item-extraction rule of lines 184-189) is page `k`,
`fetch_paginated` requests exactly pages 1 through `k` — so no request
is issued after the first empty page — and returns exactly the
concatenation, in page order, of the records of the non-empty pages it
saw, namely pages 1 through `k - 1`. -/
theorem fetch_paginated_spec {α : Type} (f : Nat → PageResp α) (k fuel : Nat)
    (hk1 : 1 ≤ k) (hk : extractItems (f k) = [])
    (hne : ∀ i, 1 ≤ i → i < k → extractItems (f i) ≠ [])
    (hfuel : k ≤ fuel) :
    fetch_paginated f fuel =
      ⟨List.range' 1 k, (List.range' 1 (k - 1)).flatMap (fun i => extractItems (f i))⟩ := by
  have h := fetchLoop_spec f k fuel 1 hk1 hk hne (by omega)
  rw [fetch_paginated, h]
  have h1 : k - 1 + 1 = k := by omega
  rw [h1]

/-- Witness for C1: pages 1 and 2 carry records (one as a bare list, one
as a dict with a `data` field), page 3 is empty; the loop requests pages
1-3 and returns the six records in order. -/
theorem fetch_paginated_spec_witness :
    fetch_paginated
      (fun n =>
        if n = 1 then PageResp.list [10, 20, 30]
        else if n = 2 then PageResp.dict (some [40, 50, 60]) none
        else PageResp.list []) 5 =
      ⟨[1, 2, 3], [10, 20, 30, 40, 50, 60]⟩ := by
  have h := fetch_paginated_spec
    (fun n =>
      if n = 1 then PageResp.list [10, 20, 30]
      else if n = 2 then PageResp.dict (some [40, 50, 60]) none
      else PageResp.list []) 3 5 (by decide) (by decide)
    (fun i h1 h2 => by
      interval_cases i
      · decide
      · decide)
    (by decide)
  rw [h]
  decide

/-! ### Detail enrichment (spec section 4.3)

The repository ships two variants of the script; the variant in
`src/fetch_all_data.py` acquires activities through the CSV scrape path
and contains no per-activity detail fetch, so the enricher is modelled
from the spec here. -/

/-- A JSON scalar as it appears in an activity record: a string or a
number. -/
inductive JVal where
  | str (v : String)
  | num (v : Int)
  deriving DecidableEq

def jvalStr : JVal → String
  | JVal.str v => v
  | JVal.num v => toString v

/-- Modelled from the spec: the trailing segment of a URL-like
hierarchical identifier (spec section 4.3, missing from
`src/fetch_all_data.py`): everything after the last `/`, the whole
string when it has no `/`. -/
def lastSegment (s : String) : String :=
  ⟨(s.toList.reverse.takeWhile (fun c => ¬(c = '/'))).reverse⟩

/-- Modelled from the spec: the "several possible field names" checked
for an activity identifier (spec section 4.3, missing from
`src/fetch_all_data.py`), in order; the flag marks the hierarchical
URL-like field whose trailing segment is used. -/
def ID_FIELDS : List (String × Bool) :=
  [("id", false), ("activity_id", false), ("@id", true)]

/-- Modelled from the spec: identifier extraction from an activity
summary (spec section 4.3, missing from `src/fetch_all_data.py`): the
first of `ID_FIELDS` present in the summary yields the identifier,
taking the trailing segment for the URL-like field. -/
def extract_id (summary : List (String × JVal)) : Option String :=
  ID_FIELDS.findSome? (fun fi =>
    (lookupKV fi.1 summary).map (fun v =>
      if fi.2 then lastSegment (jvalStr v) else jvalStr v))

/-- Modelled from the spec: Python's `{**summary, **detail}` shallow
merge (spec section 4.3, missing from `src/fetch_all_data.py`): summary
keys in order with detail values where the key collides, followed by
the detail-only keys. -/
def mergeRecords {V : Type} (s d : List (String × V)) : List (String × V) :=
  s.map (fun p => (p.1, (lookupKV p.1 d).getD p.2)) ++
    d.filter (fun p => (lookupKV p.1 s).isNone)

/-- Modelled from the spec: per-record enrichment (spec section 4.3,
missing from `src/fetch_all_data.py`): no identifier or a failed detail
fetch leaves the summary unchanged, otherwise the detail is
shallow-merged over the summary. -/
def enrich_record (fetchDetail : String → Option (List (String × JVal)))
    (summary : List (String × JVal)) : List (String × JVal) :=
  match extract_id summary with
  | none => summary
  | some i =>
    match fetchDetail i with
    | none => summary
    | some detail => mergeRecords summary detail

/-- Modelled from the spec: the enrichment batch (spec section 4.3,
missing from `src/fetch_all_data.py`): every summary is enriched
independently, so one falling back does not abort the rest. -/
def enrich_all (fetchDetail : String → Option (List (String × JVal)))
    (summaries : List (List (String × JVal))) : List (List (String × JVal)) :=
  summaries.map (enrich_record fetchDetail)

/-- Left-biased choice on options, used to state lookup facts. -/
def orO {V : Type} (a b : Option V) : Option V :=
  match a with
  | some v => some v
  | none => b

theorem lookupKV_append {V : Type} (k : String) (l1 l2 : List (String × V)) :
    lookupKV k (l1 ++ l2) = orO (lookupKV k l1) (lookupKV k l2) := by
  induction l1 with
  | nil => simp [lookupKV, orO]
  | cons p ps ih =>
    by_cases h : p.1 = k
    · simp [lookupKV, h, orO]
    · simp only [List.cons_append, lookupKV, if_neg h]
      exact ih

theorem lookupKV_map_override {V : Type} (k : String) (s d : List (String × V)) :
    lookupKV k (s.map (fun p => (p.1, (lookupKV p.1 d).getD p.2))) =
      (lookupKV k s).map (fun v => (lookupKV k d).getD v) := by
  induction s with
  | nil => simp [lookupKV]
  | cons p ps ih =>
    by_cases h : p.1 = k
    · subst h
      simp [lookupKV]
    · simp only [List.map_cons, lookupKV, if_neg h, ih]

theorem lookupKV_filter_of_isSome {V : Type} (k : String) (s d : List (String × V))
    (hs : (lookupKV k s).isSome) :
    lookupKV k (d.filter (fun p => (lookupKV p.1 s).isNone)) = none := by
  induction d with
  | nil => simp [lookupKV]
  | cons p ps ih =>
    by_cases hp : (lookupKV p.1 s).isNone
    · rw [List.filter_cons_of_pos (by simpa using hp)]
      have hpk : p.1 ≠ k := by
        intro he
        rw [he] at hp
        rw [Option.isNone_iff_eq_none] at hp
        rw [hp] at hs
        simp at hs
      simp only [lookupKV, if_neg hpk, ih]
    · rw [List.filter_cons_of_neg (by simpa using hp)]
      exact ih

theorem lookupKV_filter_of_none {V : Type} (k : String) (s d : List (String × V))
    (hs : lookupKV k s = none) :
    lookupKV k (d.filter (fun p => (lookupKV p.1 s).isNone)) = lookupKV k d := by
  induction d with
  | nil => simp
  | cons p ps ih =>
    by_cases hpk : p.1 = k
    · subst hpk
      rw [List.filter_cons_of_pos (by simp [hs])]
      simp [lookupKV, ih]
    · by_cases hp : (lookupKV p.1 s).isNone
      · rw [List.filter_cons_of_pos (by simpa using hp)]
        simp only [lookupKV, if_neg hpk, ih]
      · rw [List.filter_cons_of_neg (by simpa using hp)]
        simp only [lookupKV, if_neg hpk, ih]

/-- Lookup in a shallow merge: the detail value wins when present,
otherwise the summary value remains. -/
theorem lookupKV_mergeRecords {V : Type} (s d : List (String × V)) (k : String) :
    lookupKV k (mergeRecords s d) = orO (lookupKV k d) (lookupKV k s) := by
  rw [mergeRecords, lookupKV_append, lookupKV_map_override]
  cases hs : lookupKV k s with
  | none =>
    rw [lookupKV_filter_of_none k s d hs]
    cases lookupKV k d <;> simp [orO]
  | some v =>
    rw [lookupKV_filter_of_isSome k s d (by simp [hs])]
    cases lookupKV k d <;> simp [orO]

/-- C2: for every activity summary, the identifier is extracted by
checking the `ID_FIELDS` field names (taking the trailing segment of the
URL-like hierarchical one); with no identifier the summary is returned
unchanged; with an identifier whose detail fetch fails the unenriched
summary is returned; with a successful fetch the detail is
shallow-merged over the summary, detail fields winning on key collision;
and the batch maps every record independently, so one failure does not
abort it. -/
theorem enrich_record_spec (fetch : String → Option (List (String × JVal)))
    (summary : List (String × JVal)) :
    (extract_id summary = none → enrich_record fetch summary = summary) ∧
    (∀ i, extract_id summary = some i → fetch i = none →
      enrich_record fetch summary = summary) ∧
    (∀ i d, extract_id summary = some i → fetch i = some d →
      ∀ k, lookupKV k (enrich_record fetch summary) =
        orO (lookupKV k d) (lookupKV k summary)) ∧
    (∀ rs, enrich_all fetch rs = rs.map (enrich_record fetch)) := by
  refine ⟨?_, ?_, ?_, fun rs => rfl⟩
  · intro h
    simp [enrich_record, h]
  · intro i hi hf
    simp [enrich_record, hi, hf]
  · intro i d hi hd k
    simp only [enrich_record, hi, hd]
    exact lookupKV_mergeRecords summary d k

/-- Witness for C2: a summary with identifier `"42"` and a detail
response carrying `distance`; the merged record keeps the summary fields
and the detail `distance` wins. -/
theorem enrich_record_spec_witness :
    lookupKV "distance"
        (enrich_record
          (fun i => if i = "42" then some [("distance", JVal.num 10), ("elev", JVal.num 3)] else none)
          [("id", JVal.str "42"), ("distance", JVal.num 5), ("name", JVal.str "Run")]) =
      some (JVal.num 10) ∧
    lookupKV "name"
        (enrich_record
          (fun i => if i = "42" then some [("distance", JVal.num 10), ("elev", JVal.num 3)] else none)
          [("id", JVal.str "42"), ("distance", JVal.num 5), ("name", JVal.str "Run")]) =
      some (JVal.str "Run") ∧
    lookupKV "elev"
        (enrich_record
          (fun i => if i = "42" then some [("distance", JVal.num 10), ("elev", JVal.num 3)] else none)
          [("id", JVal.str "42"), ("distance", JVal.num 5), ("name", JVal.str "Run")]) =
      some (JVal.num 3) := by
  have h := (enrich_record_spec
    (fun i => if i = "42" then some [("distance", JVal.num 10), ("elev", JVal.num 3)] else none)
    [("id", JVal.str "42"), ("distance", JVal.num 5), ("name", JVal.str "Run")]).2.2.1
    "42" [("distance", JVal.num 10), ("elev", JVal.num 3)] (by decide) (by decide)
  refine ⟨?_, ?_, ?_⟩ <;> rw [h] <;> decide

/-! ### Login landing-URL check (lines 121-128) -/

inductive LoginStep where
  | fatalExit (code : Nat)
  | proceed
  deriving DecidableEq

/-- Lines 124-128: after POSTing the credentials, a final landing URL
still containing `/login` means the login failed and the process exits
with code 1; otherwise the run continues. -/
def login_url_check (landingUrl : String) : LoginStep :=
  if strContains landingUrl "/login" then LoginStep.fatalExit 1 else LoginStep.proceed

/-- C5: a post-login landing URL containing `/login` is treated as login
failure and exits the process with code 1; a landing URL without
`/login` is treated as success and the run proceeds. -/
theorem login_url_check_spec (url : String) :
    (strContains url "/login" = true → login_url_check url = LoginStep.fatalExit 1) ∧
    (strContains url "/login" = false → login_url_check url = LoginStep.proceed) := by
  constructor <;> intro h <;> simp [login_url_check, h]

/-- Witness for C5: the login page itself fails, the dashboard succeeds. -/
theorem login_url_check_spec_witness :
    login_url_check "https://runalyze.com/login" = LoginStep.fatalExit 1 ∧
    login_url_check "https://runalyze.com/dashboard" = LoginStep.proceed :=
  ⟨(login_url_check_spec "https://runalyze.com/login").1 (by decide),
   (login_url_check_spec "https://runalyze.com/dashboard").2 (by decide)⟩

/-! ### `load_env` (lines 57-68) -/

/-- One line of the `.env` file (lines 62-66): strip surrounding
whitespace; skip the line when it is empty, starts with `#`, or has no
`=`; otherwise split at the first `=`, strip the key, and strip
whitespace, then double quotes, then single quotes from the value.
(`Char.ofNat 34` is the double quote, `Char.ofNat 39` the single
quote.) -/
def parseEnvLine (line : String) : Option (String × String) :=
  let l := pyStrip line
  if l.toList = [] then none
  else if startsWithCh [Char.ofNat 35] l.toList then none
  else
    match splitOnceCh (Char.ofNat 61) l.toList with
    | none => none
    | some kv =>
      some (pyStrip ⟨kv.1⟩,
        pyStripChar (Char.ofNat 39) (pyStripChar (Char.ofNat 34) (pyStrip ⟨kv.2⟩)))

/-- `load_env` (lines 57-68): fold the `.env` lines over the process
environment, setting a parsed key only when it is absent. -/
def load_env : List String → List (String × String) → List (String × String)
  | [], env => env
  | line :: rest, env =>
    match parseEnvLine line with
    | none => load_env rest env
    | some kv =>
      if (lookupKV kv.1 env).isSome then load_env rest env
      else load_env rest (env ++ [kv])

/-- C9: `load_env` never overrides a key already present in the
environment — its value is unchanged whatever the file holds — and a key
absent from the environment ends up with the value of the first
parseable `KEY=VALUE` line for it (comment lines and lines without `=`
contribute nothing, and quotes are stripped, all encoded in
`parseEnvLine`). -/
theorem load_env_spec (lines : List String) :
    ∀ env k,
      (∀ v, lookupKV k env = some v → lookupKV k (load_env lines env) = some v) ∧
      (lookupKV k env = none →
        lookupKV k (load_env lines env) = lookupKV k (lines.filterMap parseEnvLine)) := by
  induction lines with
  | nil =>
    intro env k
    refine ⟨fun v hv => hv, fun h => ?_⟩
    simpa [load_env, lookupKV] using h
  | cons line rest ih =>
    intro env k
    cases hp : parseEnvLine line with
    | none =>
      constructor
      · intro v hv
        simp only [load_env, hp]
        exact (ih env k).1 v hv
      · intro h
        simp only [load_env, hp, List.filterMap_cons]
        exact (ih env k).2 h
    | some kv =>
      by_cases hkv : (lookupKV kv.1 env).isSome = true
      · constructor
        · intro v hv
          simp only [load_env, hp, if_pos hkv]
          exact (ih env k).1 v hv
        · intro h
          simp only [load_env, hp, if_pos hkv, List.filterMap_cons]
          rw [(ih env k).2 h]
          have hne : kv.1 ≠ k := by
            intro he
            rw [he, h] at hkv
            simp at hkv
          simp [lookupKV, hne]
      · have hnone : lookupKV kv.1 env = none := by
          simpa [Option.isNone_iff_eq_none] using hkv
        constructor
        · intro v hv
          simp only [load_env, hp, if_neg hkv]
          apply (ih (env ++ [kv]) k).1 v
          rw [lookupKV_append, hv]
          rfl
        · intro h
          simp only [load_env, hp, if_neg hkv, List.filterMap_cons]
          by_cases hke : kv.1 = k
          · have hv : lookupKV k (env ++ [kv]) = some kv.2 := by
              rw [lookupKV_append, h]
              simp [orO, lookupKV, hke]
            rw [(ih (env ++ [kv]) k).1 kv.2 hv]
            simp [lookupKV, hke]
          · have hn : lookupKV k (env ++ [kv]) = none := by
              rw [lookupKV_append, h]
              simp [orO, lookupKV, hke]
            rw [(ih (env ++ [kv]) k).2 hn]
            simp [lookupKV, hke]

/-- Witness for C9: a pre-set key survives the file, an absent key is
populated from it with quotes stripped, and comment / `=`-less lines are
skipped. -/
theorem load_env_spec_witness :
    lookupKV "RUNALYZE_TOKEN"
        (load_env ["# note", "RUNALYZE_TOKEN=from-file", "RUNALYZE_USERNAME=\"me\"", "noequals"]
          [("RUNALYZE_TOKEN", "from-env")]) = some "from-env" ∧
    lookupKV "RUNALYZE_USERNAME"
        (load_env ["# note", "RUNALYZE_TOKEN=from-file", "RUNALYZE_USERNAME=\"me\"", "noequals"]
          [("RUNALYZE_TOKEN", "from-env")]) = some "me" := by
  constructor
  · exact (load_env_spec ["# note", "RUNALYZE_TOKEN=from-file", "RUNALYZE_USERNAME=\"me\"", "noequals"]
      [("RUNALYZE_TOKEN", "from-env")] "RUNALYZE_TOKEN").1 "from-env" (by decide)
  · rw [(load_env_spec ["# note", "RUNALYZE_TOKEN=from-file", "RUNALYZE_USERNAME=\"me\"", "noequals"]
      [("RUNALYZE_TOKEN", "from-env")] "RUNALYZE_USERNAME").2 (by decide)]
    decide

/-! ### `save_csv_copy` (lines 218-235) -/

/-- One row written by `csv.DictWriter.writerows` (lines 230-232): a key
of the row outside `fieldnames` raises `ValueError` (the default
`extrasaction`), a missing key is written as the default empty cell. -/
def dictWriterRow (fieldnames : List String) (row : List (String × String)) :
    Except String (List String) :=
  if row.all (fun p => fieldnames.contains p.1) then
    Except.ok (fieldnames.map (fun k => (lookupKV k row).getD ""))
  else Except.error "ValueError"

def dictWriterRows (fieldnames : List String) (rows : List (List (String × String))) :
    Except String (List (List String)) :=
  rows.mapM (dictWriterRow fieldnames)

/-- `save_csv_copy` (lines 218-235): the value is the written file as a
list of rows of cells.  The empty record list writes the empty file
(`filepath.write_text("")`, lines 223-225); otherwise the field names
are the keys of the first record (line 227) and the file is the header
row followed by the data rows. -/
def save_csv_copy (data : List (List (String × String))) :
    Except String (List (List String)) :=
  match data with
  | [] => Except.ok []
  | first :: _ =>
    (dictWriterRows (first.map Prod.fst) data).map
      (fun rows => (first.map Prod.fst) :: rows)

/-- C10: called with the empty record list, `save_csv_copy` writes a
completely empty file — no header row — and returns without error; for a
non-empty list whose rows write cleanly, the first line of the file (the
CSV header) is exactly the key list of the first record. -/
theorem save_csv_copy_spec (data : List (List (String × String))) :
    (data = [] → save_csv_copy data = Except.ok []) ∧
    (∀ first rest rows, data = first :: rest →
      save_csv_copy data = Except.ok rows →
      rows.head? = some (first.map Prod.fst)) := by
  constructor
  · intro h
    subst h
    rfl
  · intro first rest rows hd h
    subst hd
    rw [save_csv_copy] at h
    cases hr : dictWriterRows (first.map Prod.fst) (first :: rest) with
    | error e =>
      rw [hr] at h
      simp [Except.map] at h
    | ok rs =>
      rw [hr] at h
      simp only [Except.map] at h
      cases h
      rfl

/-- Witness for C10: the empty list and a two-record list with keys
`id, distance`. -/
theorem save_csv_copy_spec_witness :
    save_csv_copy ([] : List (List (String × String))) = Except.ok [] ∧
    ([["id", "distance"], ["1", "10"], ["2", "20"]] : List (List String)).head? =
      some ["id", "distance"] := by
  constructor
  · exact (save_csv_copy_spec []).1 rfl
  · exact (save_csv_copy_spec
      [[("id", "1"), ("distance", "10")], [("id", "2"), ("distance", "20")]]).2
      [("id", "1"), ("distance", "10")] [[("id", "2"), ("distance", "20")]]
      [["id", "distance"], ["1", "10"], ["2", "20"]] rfl (by decide)

/-! ### `main` (lines 257-331) and `save_metadata` (lines 238-251)

`main` is embedded as a function of the run's inputs: the resolved
credentials, what `fetch_activities_csv` found (CSRF token, post-login
landing URL), the API token, whether the ping call raised, and the
records each dataset fetch produced.  The result is either a process
exit or the final stats together with the metadata document written by
`save_metadata`. -/

structure RunInput (α : Type) where
  username : Option String
  password : Option String
  csrfToken : Option String
  loginLandingUrl : String
  token : Option String
  pingOk : Bool
  activities : List α
  hrv : List α
  sleepData : List α
  restingHr : List α
  deriving DecidableEq

structure Metadata where
  last_updated : String
  counts : List (String × Nat)
  deriving DecidableEq

inductive RunResult where
  | exited (code : Nat)
  | completed (stats : List (String × Nat)) (metadata : Metadata)
  deriving DecidableEq

/-- Python truthiness of an optional string (`if not username ...`,
line 76): absent or empty is falsy. -/
def truthy : Option String → Bool
  | none => false
  | some s => !s.isEmpty

/-- `save_metadata` (lines 238-251): the metadata document value,
`now` being `datetime.now(timezone.utc).isoformat()`. -/
def save_metadata (stats : List (String × Nat)) (now : String) : Metadata :=
  { last_updated := now, counts := stats }

/-- `main` (lines 257-331).  Missing credentials exit with code 1
(lines 76-79); a missing CSRF token exits with code 1 (lines 107-109);
a landing URL containing `/login` exits with code 1 (lines 124-126);
a failed ping merely clears the token (lines 284-289), so the
health-metric datasets are fetched exactly when the token is truthy and
the ping succeeded (lines 281-311); the stats collect the record count
of each fetched dataset in order and are written as the metadata
`counts` (line 320). -/
def main_model {α : Type} (inp : RunInput α) (now : String) : RunResult :=
  if ¬(truthy inp.username = true ∧ truthy inp.password = true) then RunResult.exited 1
  else if inp.csrfToken = none then RunResult.exited 1
  else if strContains inp.loginLandingUrl "/login" then RunResult.exited 1
  else
    let stats1 := [("activities", inp.activities.length)]
    let stats :=
      if truthy inp.token && inp.pingOk then
        stats1 ++ [("hrv", inp.hrv.length), ("sleep", inp.sleepData.length),
                   ("resting_hr", inp.restingHr.length)]
      else stats1
    RunResult.completed stats (save_metadata stats now)

/-- C6 counterexample: a run with valid credentials, a found CSRF token,
a successful login, a token present but a failing ping does not exit
with code 1 — the code merely clears the token and completes the run,
contradicting the claim that a failed connectivity test exits 1. -/
theorem main_ping_failure_counterexample :
    main_model
      (⟨some "user", some "pw", some "csrf", "https://runalyze.com/dashboard",
        some "tok", false, [], [], [], []⟩ : RunInput Nat)
      "2026-01-01T00:00:00+00:00" ≠ RunResult.exited 1 := by decide

/-- C6 (amended): the program exits with code 1 when the required
credentials are missing, when the CSRF token is missing from the login
page, or when the login fails; a failed API connectivity test does not
exit — with valid credentials and a successful login the run completes
(the health-metric datasets are merely skipped). -/
theorem main_exit_spec {α : Type} (inp : RunInput α) (now : String) :
    (¬(truthy inp.username = true ∧ truthy inp.password = true) →
      main_model inp now = RunResult.exited 1) ∧
    (truthy inp.username = true → truthy inp.password = true → inp.csrfToken = none →
      main_model inp now = RunResult.exited 1) ∧
    (truthy inp.username = true → truthy inp.password = true →
      strContains inp.loginLandingUrl "/login" = true →
      main_model inp now = RunResult.exited 1) ∧
    (truthy inp.username = true → truthy inp.password = true → inp.csrfToken ≠ none →
      strContains inp.loginLandingUrl "/login" = false →
      ∃ stats md, main_model inp now = RunResult.completed stats md) := by
  refine ⟨?_, ?_, ?_, ?_⟩
  · intro h
    simp [main_model, h]
  · intro hu hp hc
    simp [main_model, hu, hp, hc]
  · intro hu hp hl
    simp [main_model, hu, hp, hl]
  · intro hu hp hc hl
    have hcreds : ¬¬(truthy inp.username = true ∧ truthy inp.password = true) :=
      not_not_intro ⟨hu, hp⟩
    have hl' : ¬(strContains inp.loginLandingUrl "/login" = true) := by simp [hl]
    have heq : main_model inp now = RunResult.completed
        (if truthy inp.token && inp.pingOk then
           [("activities", inp.activities.length), ("hrv", inp.hrv.length),
            ("sleep", inp.sleepData.length), ("resting_hr", inp.restingHr.length)]
         else [("activities", inp.activities.length)])
        (save_metadata
          (if truthy inp.token && inp.pingOk then
             [("activities", inp.activities.length), ("hrv", inp.hrv.length),
              ("sleep", inp.sleepData.length), ("resting_hr", inp.restingHr.length)]
           else [("activities", inp.activities.length)]) now) := by
      simp only [main_model]
      rw [if_neg hcreds, if_neg hc, if_neg hl']
      rfl
    exact ⟨_, _, heq⟩

/-- Witness for C6 (amended): missing password, missing CSRF token, a
login bounced back to `/login`, and a clean run. -/
theorem main_exit_spec_witness :
    main_model (⟨some "user", none, some "csrf", "https://runalyze.com/dashboard",
      none, true, ([] : List Nat), [], [], []⟩) "t" = RunResult.exited 1 ∧
    main_model (⟨some "user", some "pw", none, "https://runalyze.com/dashboard",
      none, true, ([] : List Nat), [], [], []⟩) "t" = RunResult.exited 1 ∧
    main_model (⟨some "user", some "pw", some "csrf", "https://runalyze.com/login",
      none, true, ([] : List Nat), [], [], []⟩) "t" = RunResult.exited 1 ∧
    ∃ stats md,
      main_model (⟨some "user", some "pw", some "csrf", "https://runalyze.com/dashboard",
        none, true, ([] : List Nat), [], [], []⟩) "t" = RunResult.completed stats md := by
  refine ⟨?_, ?_, ?_, ?_⟩
  · exact (main_exit_spec (⟨some "user", none, some "csrf", "https://runalyze.com/dashboard",
      none, true, ([] : List Nat), [], [], []⟩) "t").1 (by decide)
  · exact (main_exit_spec (⟨some "user", some "pw", none, "https://runalyze.com/dashboard",
      none, true, ([] : List Nat), [], [], []⟩) "t").2.1 (by decide) (by decide) (by decide)
  · exact (main_exit_spec (⟨some "user", some "pw", some "csrf", "https://runalyze.com/login",
      none, true, ([] : List Nat), [], [], []⟩) "t").2.2.1 (by decide) (by decide) (by decide)
  · exact (main_exit_spec (⟨some "user", some "pw", some "csrf", "https://runalyze.com/dashboard",
      none, true, ([] : List Nat), [], [], []⟩) "t").2.2.2 (by decide) (by decide) (by decide)
      (by decide)

/-- C7: on any run that completes, the written metadata document carries
the UTC timestamp it was given and a `counts` mapping equal to the final
stats; the key list of `counts` is exactly `activities` plus — exactly
when the health-metric path ran, i.e. the token was present and the ping
succeeded — `hrv`, `sleep` and `resting_hr`; and every key maps to the
record count of its dataset. -/
theorem save_metadata_counts_spec {α : Type} (inp : RunInput α) (now : String)
    (stats : List (String × Nat)) (md : Metadata)
    (h : main_model inp now = RunResult.completed stats md) :
    md = save_metadata stats now ∧ md.counts = stats ∧ md.last_updated = now ∧
    stats.map Prod.fst =
      (if truthy inp.token && inp.pingOk then ["activities", "hrv", "sleep", "resting_hr"]
       else ["activities"]) ∧
    lookupKV "activities" stats = some inp.activities.length ∧
    ((truthy inp.token && inp.pingOk) = true →
      lookupKV "hrv" stats = some inp.hrv.length ∧
      lookupKV "sleep" stats = some inp.sleepData.length ∧
      lookupKV "resting_hr" stats = some inp.restingHr.length) := by
  simp only [main_model] at h
  by_cases h1 : truthy inp.username = true ∧ truthy inp.password = true
  · rw [if_neg (not_not_intro h1)] at h
    by_cases h2 : inp.csrfToken = none
    · rw [if_pos h2] at h
      cases h
    · rw [if_neg h2] at h
      by_cases h3 : strContains inp.loginLandingUrl "/login" = true
      · rw [if_pos h3] at h
        cases h
      · rw [if_neg h3] at h
        by_cases h4 : (truthy inp.token && inp.pingOk) = true
        · rw [if_pos h4] at h
          obtain ⟨hstats, hmd⟩ := RunResult.completed.inj h
          subst hstats
          subst hmd
          refine ⟨rfl, rfl, rfl, ?_, rfl, ?_⟩
          · rw [if_pos h4]
            rfl
          · intro _
            exact ⟨rfl, rfl, rfl⟩
        · rw [if_neg h4] at h
          obtain ⟨hstats, hmd⟩ := RunResult.completed.inj h
          subst hstats
          subst hmd
          refine ⟨rfl, rfl, rfl, ?_, rfl, ?_⟩
          · rw [if_neg h4]
            rfl
          · intro hcon
            exact absurd hcon h4
  · rw [if_pos h1] at h
    cases h

/-- Witness for C7: a completing run with the health-metric path active. -/
theorem save_metadata_counts_spec_witness :
    ([("activities", 2), ("hrv", 1), ("sleep", 2), ("resting_hr", 0)].map
        (Prod.fst (β := Nat)) = ["activities", "hrv", "sleep", "resting_hr"]) ∧
    lookupKV "activities" [("activities", 2), ("hrv", 1), ("sleep", 2), ("resting_hr", 0)] =
      some 2 ∧
    lookupKV "hrv" [("activities", 2), ("hrv", 1), ("sleep", 2), ("resting_hr", 0)] = some 1 := by
  have h := save_metadata_counts_spec
    (⟨some "u", some "p", some "c", "https://runalyze.com/dashboard",
      some "tok", true, [5, 6], [7], [8, 9], []⟩ : RunInput Nat) "now"
    [("activities", 2), ("hrv", 1), ("sleep", 2), ("resting_hr", 0)]
    ⟨"now", [("activities", 2), ("hrv", 1), ("sleep", 2), ("resting_hr", 0)]⟩
    (by decide)
  exact ⟨h.2.2.2.1, h.2.2.2.2.1, (h.2.2.2.2.2 (by decide)).1⟩

end Rundash
